import Mathlib

/-!
Verification development for the AirAuth single-page application
(source: src/responsive design/app.js).

The JavaScript class AirAuthApp is shallowly embedded: its mutable fields
become a Lean structure AppState, its methods become pure state-passing
functions, injected inputs (clock, id source, random source, recorded
chunks) become explicit parameters, and DOM writes become an explicit
effect log. All definitions are translated from the source file; the only
exceptions carry a doc comment starting with the words Modelled from the
spec and concern material outside app.js (the set of page elements of
index.html).
-/

namespace AirAuth

/-- The payload reference stored in a SignatureSample. In the source this
is a JavaScript Blob built from the recorded chunks; after one pass
through JSON (stringify then parse) it degenerates to a plain empty
object, because a Blob has no enumerable own properties. We track both
shapes. -/
inductive BlobRef where
  | media (chunks : List String)
  | emptyObj
deriving DecidableEq, Repr

/-- One recorded air-signature sample (saveSignature, lines 695-701). -/
structure SignatureSample where
  id : String
  videoUrl : String
  blob : BlobRef
  timestamp : String
  duration : Nat
deriving DecidableEq, Repr

/-- One entry of the per-account authentication history
(addAuthHistory, lines 1058-1063). -/
structure AuthHistoryEntry where
  timestamp : String
  method : String
  success : Bool
  details : String
deriving DecidableEq, Repr

/-- A registered user record (handleRegistration, lines 238-248). -/
structure Account where
  id : String
  username : String
  email : String
  password : String
  signatures : List SignatureSample
  enrollmentComplete : Bool
  createdAt : String
  lastLogin : Option String
  authHistory : List AuthHistoryEntry
deriving DecidableEq, Repr

/-- The account created by handleRegistration on a successful
registration (lines 238-248): empty signature list, empty history,
enrollment not complete. -/
def freshAccount (idStr uname mail pw nowStr : String) : Account :=
  { id := idStr
    username := uname
    email := mail
    password := pw
    signatures := []
    enrollmentComplete := false
    createdAt := nowStr
    lastLogin := none
    authHistory := [] }

/-- Effect of saveSignature (lines 704-721) on the account of the current
user: push the new sample, then set enrollmentComplete when the new
signature count has reached 5. The source has no cap and no rejection
based on the count. -/
def saveToAccount (a : Account) (sig : SignatureSample) : Account :=
  let a1 : Account := { a with signatures := a.signatures ++ [sig] }
  if 5 ≤ a1.signatures.length then { a1 with enrollmentComplete := true } else a1

/-- The enrollment invariant of the spec data model: the flag is set
exactly when at least 5 samples are held. -/
def enrollInv (a : Account) : Prop :=
  a.enrollmentComplete = true ↔ 5 ≤ a.signatures.length

/-- JSON image of a signature sample: JSON.stringify writes the Blob
field as an empty object, so parsing the stored string back yields a
sample whose blob is the plain empty object; every other field is a
string or a number and survives unchanged (saveUserData line 1038,
loadUserData line 1014). -/
def jsonRoundTripSample (s : SignatureSample) : SignatureSample :=
  { s with blob := BlobRef.emptyObj }

/-- JSON image of an account: only the blob payloads inside the
signature list are affected. -/
def jsonRoundTripAccount (a : Account) : Account :=
  { a with signatures := a.signatures.map jsonRoundTripSample }

/-- All ways an account record is created or mutated in app.js:
registration (lines 238-248), saving a signature (lines 704-721),
a login updating lastLogin (line 285), a history append (line 1065),
and being reloaded from storage (loadUserData). -/
inductive AccountReachable : Account → Prop where
  | registered (idStr uname mail pw nowStr : String) :
      AccountReachable (freshAccount idStr uname mail pw nowStr)
  | saved (a : Account) (sig : SignatureSample) :
      AccountReachable a → AccountReachable (saveToAccount a sig)
  | loggedIn (a : Account) (nowStr : String) :
      AccountReachable a → AccountReachable { a with lastLogin := some nowStr }
  | historyAdded (a : Account) (e : AuthHistoryEntry) :
      AccountReachable a → AccountReachable { a with authHistory := a.authHistory ++ [e] }
  | reloaded (a : Account) :
      AccountReachable a → AccountReachable (jsonRoundTripAccount a)

/-! ## User directory

this.users is a JavaScript Map from username to account. A Map keeps
insertion order, so it is embedded as an ordered association list; set on
a fresh key appends, set on a present key replaces in place. -/

/-- Directory of registered users, keyed by username. -/
abbrev Directory := List (String × Account)

/-- users.has k. -/
def hasKey (users : Directory) (k : String) : Bool :=
  users.any (fun p => p.1 = k)

/-- users.get k: the value stored under key k, if any. -/
def mapGet (users : Directory) (k : String) : Option Account :=
  (users.find? (fun p => p.1 = k)).map (fun p => p.2)

/-- users.set k v: replace in place when the key is present, append
otherwise. -/
def mapSet (users : Directory) (k : String) (v : Account) : Directory :=
  if hasKey users k then
    users.map (fun p => if p.1 = k then (k, v) else p)
  else users ++ [(k, v)]

/-- Array.from(users.values()).find(u => u.email === e): the first
account, in insertion order, whose email equals e. -/
def emailFind (users : Directory) (e : String) : Option Account :=
  (users.find? (fun p => p.2.email = e)).map (fun p => p.2)

/-- users.get(id) || emailFind(id): lookup by username first, then by
email, first match wins (handleLogin line 274). -/
def findUser (users : Directory) (ident : String) : Option Account :=
  (mapGet users ident).orElse (fun _ => emailFind users ident)

/-- Array.from(users.values()).some(u => u.email === e): the duplicate
email check of handleRegistration line 232 and validateEmail line 380. -/
def emailTaken (users : Directory) (e : String) : Bool :=
  users.any (fun p => p.2.email = e)

/-! ## Form validation (lines 323-469)

Only the pure accept/reject outcome and the error message written next to
each field are modelled; the strength bar and the DOM wiring are display
concerns. -/

/-- String.prototype.trim as applied to the form inputs: drop leading
and trailing whitespace. -/
def jsTrim (s : String) : String :=
  String.mk
    ((s.toList.dropWhile Char.isWhitespace).reverse.dropWhile
      Char.isWhitespace).reverse

/-- One character of the class [a-zA-Z0-9_] of the username pattern
(line 352). -/
def isWordChar (c : Char) : Bool :=
  (decide ('a' ≤ c) && decide (c ≤ 'z')) ||
  (decide ('A' ≤ c) && decide (c ≤ 'Z')) ||
  (decide ('0' ≤ c) && decide (c ≤ '9')) ||
  decide (c = '_')

/-- The test of the regex /^[a-zA-Z0-9_]+$/ (line 352): nonempty and
every character in the class. Emptiness is subsumed by the preceding
length check, but is kept for fidelity to the regex. -/
def usernameCharsOk (s : String) : Bool :=
  !s.toList.isEmpty && s.toList.all isWordChar

/-- A character admitted by the class [^\s@] of the email regex
(line 376): neither whitespace nor the at sign. -/
def emailClassChar (c : Char) : Bool :=
  !c.isWhitespace && !(c = '@')

/-- Split a character list at its first at sign, keeping both sides. -/
def breakAtSign : List Char → Option (List Char × List Char)
  | [] => none
  | c :: rest =>
      if c = '@' then some ([], rest)
      else (breakAtSign rest).map (fun p => (c :: p.1, p.2))

/-- A dot occurring at neither end of the list, scanning the part after
the leading character. -/
def innerDotAux : List Char → Bool
  | [] => false
  | [_] => false
  | c :: rest => (c = '.') || innerDotAux rest

/-- The list splits as x ++ [dot] ++ y with x and y nonempty. -/
def hasInnerDot : List Char → Bool
  | [] => false
  | _ :: rest => innerDotAux rest

/-- The test of the regex /^[^\s@]+@[^\s@]+\.[^\s@]+$/ (line 376):
a nonempty at-free, space-free local part, one at sign, and a remainder
made of class characters containing a dot at neither end. The regex
admits a match exactly when the split at the first at sign has this
shape, because both character classes exclude the at sign. -/
def emailOk (s : String) : Bool :=
  match breakAtSign s.toList with
  | none => false
  | some (a, b) => !a.isEmpty && a.all emailClassChar &&
      b.all emailClassChar && hasInnerDot b

/-- validateUsername (lines 341-366): outcome and error message. -/
def validateUsernameMsg (users : Directory) (username : String) : Bool × String :=
  if username.length < 3 then
    (false, "Username must be at least 3 characters long")
  else if !usernameCharsOk username then
    (false, "Username can only contain letters, numbers, and underscores")
  else if hasKey users username then
    (false, "Username already exists")
  else (true, "")

/-- validateEmail (lines 368-391): outcome and error message. -/
def validateEmailMsg (users : Directory) (email : String) : Bool × String :=
  if !emailOk email then
    (false, "Please enter a valid email address")
  else if emailTaken users email then
    (false, "Email already registered")
  else (true, "")

/-- validatePassword (lines 393-447): only the length bound decides
validity; the strength score is display-only. -/
def validatePasswordMsg (password : String) : Bool × String :=
  if password.length < 8 then
    (false, "Password must be at least 8 characters long")
  else (true, "")

/-- validateConfirmPassword (lines 449-469). -/
def validateConfirmMsg (confirmPassword password : String) : Bool × String :=
  if !(confirmPassword = password) then
    (false, "Passwords do not match")
  else (true, "")

/-- validateRegistrationForm (lines 323-339): all four checks must
pass. -/
def validateRegistrationForm (users : Directory)
    (username email password confirmPassword : String) : Bool :=
  (validateUsernameMsg users username).1 &&
  (validateEmailMsg users email).1 &&
  (validatePasswordMsg password).1 &&
  (validateConfirmMsg confirmPassword password).1

/-! ## Application state and observable effects -/

/-- The mutable fields of the AirAuthApp class (constructor, lines 7-22).
The webcam stream and the media recorder are opaque browser handles and
are tracked by presence; the recorded chunks carry their data so that the
saved blob is the data actually recorded. The field appAuthHistory embeds
this.authHistory of line 16, which the rest of the source never touches. -/
structure AppState where
  currentUser : Option Account
  currentPage : String
  webcamStream : Bool
  mediaRecorder : Bool
  recordedChunks : List String
  signatureCount : Nat
  isRecording : Bool
  appAuthHistory : List AuthHistoryEntry
  users : Directory
  isAuthenticated : Bool
deriving DecidableEq, Repr

/-- The state built by the constructor (lines 7-22), before loadUserData
runs. -/
def freshAppState : AppState :=
  { currentUser := none
    currentPage := "home"
    webcamStream := false
    mediaRecorder := false
    recordedChunks := []
    signatureCount := 0
    isRecording := false
    appAuthHistory := []
    users := []
    isAuthenticated := false }

/-- Observable display effects. Notifications carry the message and the
severity passed to showNotification; field errors carry the form field
and the message written into its error element; the three dashboard
entries record the dashboard-only refresh work of updateDashboard
(lines 920-927). -/
inductive Effect where
  | notify (msg severity : String)
  | fieldError (field msg : String)
  | updateProfileInfo
  | updateAuthStats
  | updateAuthHistoryTable
deriving DecidableEq, Repr

/-! ## Navigation (showPage, lines 144-203)

showPage marks the requested page active, records it as currentPage and
runs the page entry hook of initializePage. Two of the hooks navigate
again (updateDashboard redirects to login when nobody is logged in,
checkLoginRedirect forwards an authenticated user to the dashboard), so
the embedding recurses on an explicit depth; every such chain in the
source stops after at most two hops, so a depth of 3 is never
exhausted. -/

/-- Modelled from the spec: the page elements present in index.html,
which is not part of src/. The spec fixes the page identifiers as the
enumerated set home, login, register, enrollment, auth-test, dashboard. -/
def pageIds : List String :=
  ["home", "login", "register", "enrollment", "auth-test", "dashboard"]

/-- stopCamera (lines 546-566): release the stream when one is held and
announce it; a no-op otherwise. -/
def stopCamera (st : AppState) : AppState × List Effect :=
  if st.webcamStream then
    ({ st with webcamStream := false }, [Effect.notify "Camera stopped" "info"])
  else (st, [])

/-- resetEnrollment (lines 757-769): recompute the signature counter
from the saved signatures of the current user, drop transient recording
state and stop the camera. -/
def resetEnrollment (st : AppState) : AppState × List Effect :=
  stopCamera
    { st with
      signatureCount := match st.currentUser with
        | some u => u.signatures.length
        | none => 0
      recordedChunks := []
      isRecording := false }

/-- resetAuthTest (lines 895-905): stop the camera and hide the previous
result display. -/
def resetAuthTest (st : AppState) : AppState × List Effect :=
  stopCamera st

/-- showPage (lines 144-203) together with the entry hooks dispatched by
initializePage (lines 185-203): updateDashboard (lines 911-928),
resetEnrollment, resetAuthTest, checkLoginRedirect (lines 313-317) and
resetRegistrationForm (display only). Pages outside pageIds only raise a
not-found notification. -/
def showPageAux : Nat → AppState → String → AppState × List Effect
  | 0, st, _ => (st, [])
  | Nat.succ depth, st, pageId =>
      if pageId ∈ pageIds then
        let st1 := { st with currentPage := pageId }
        if pageId = "dashboard" then
          match st1.currentUser with
          | none =>
              let next := showPageAux depth st1 "login"
              (next.1,
                Effect.notify "Please log in to access dashboard" "error" :: next.2)
          | some _ =>
              (st1, [Effect.updateProfileInfo, Effect.updateAuthStats,
                Effect.updateAuthHistoryTable])
        else if pageId = "enrollment" then
          resetEnrollment st1
        else if pageId = "auth-test" then
          resetAuthTest st1
        else if pageId = "login" then
          if st1.isAuthenticated && st1.currentUser.isSome then
            showPageAux depth st1 "dashboard"
          else (st1, [])
        else (st1, [])
      else
        (st, [Effect.notify "page not found" "error"])

/-- Navigation at the depth sufficient for every redirect chain of the
source. -/
def navigate (st : AppState) (pageId : String) : AppState × List Effect :=
  showPageAux 3 st pageId

/-- handleAirAuth (lines 301-311): the air-authentication entry button.
Without a logged-in, fully enrolled user it warns and navigates to the
enrollment page; otherwise it opens the auth-test page. -/
def handleAirAuth (st : AppState) : AppState × List Effect :=
  let enrolled := match st.currentUser with
    | some u => u.enrollmentComplete
    | none => false
  if !enrolled then
    let next := navigate st "enrollment"
    (next.1, Effect.notify "Please complete enrollment first!" "error" :: next.2)
  else
    navigate st "auth-test"

/-! ## Registration and login (lines 216-317, 1055-1069) -/

/-- The four field-error writes performed by one run of
validateRegistrationForm, in source order. -/
def regFieldEffects (users : Directory)
    (uname mail password confirmPassword : String) : List Effect :=
  [Effect.fieldError "username" (validateUsernameMsg users uname).2,
   Effect.fieldError "email" (validateEmailMsg users mail).2,
   Effect.fieldError "password" (validatePasswordMsg password).2,
   Effect.fieldError "confirmPassword" (validateConfirmMsg confirmPassword password).2]

/-- handleRegistration (lines 216-263). The username and the email are
trimmed; the form is validated; a duplicate username or email aborts;
otherwise the new account is stored under its username, becomes the
session, and the delayed showPage moves to the enrollment page. The id
source (Date.now) and the clock are the parameters idStr and nowStr. -/
def handleRegistration (st : AppState)
    (username email password confirmPassword idStr nowStr : String) :
    AppState × List Effect :=
  let uname := jsTrim username
  let mail := jsTrim email
  let fieldEffs := regFieldEffects st.users uname mail password confirmPassword
  if !validateRegistrationForm st.users uname mail password confirmPassword then
    (st, fieldEffs)
  else if hasKey st.users uname || emailTaken st.users mail then
    (st, fieldEffs ++ [Effect.notify "Username or email already exists!" "error"])
  else
    let newUser := freshAccount idStr uname mail password nowStr
    let st1 := { st with
      users := mapSet st.users uname newUser
      currentUser := some newUser
      isAuthenticated := true }
    let next := navigate st1 "enrollment"
    (next.1,
      fieldEffs ++
        Effect.notify "Registration successful! Please complete enrollment."
          "success" :: next.2)

/-- The entry push of addAuthHistory (lines 1058-1065) on one account:
append the new entry to its history. -/
def pushHistory (u : Account) (nowStr method : String)
    (success : Bool) (details : String) : Account :=
  { u with authHistory := u.authHistory ++
      [{ timestamp := nowStr, method := method,
         success := success, details := details }] }

/-- addAuthHistory (lines 1055-1069) as a state step: push onto the
session account when one exists, silently do nothing otherwise. The push
lands on the object held in this.currentUser; the directory copy shares
it only while the two alias the same object, which the embedding does
not assume. -/
def addAuthHistory (st : AppState) (nowStr method : String)
    (success : Bool) (details : String) : AppState :=
  match st.currentUser with
  | none => st
  | some u =>
      { st with currentUser := some (pushHistory u nowStr method success details) }

/-- handleLogin (lines 265-299). The identifier is trimmed and matched
against usernames first, then emails. A miss or a wrong password leaves
everything except a possible history push on the previous session
account untouched. A hit updates lastLogin, appends a success entry, and
the user found in the directory is the same object as the new session
account, so both see the updates; the delayed showPage then opens the
dashboard for an enrolled user and the enrollment page otherwise. -/
def handleLogin (st : AppState) (identifier password nowStr : String) :
    AppState × List Effect :=
  let uname := jsTrim identifier
  let failed (st0 : AppState) : AppState × List Effect :=
    (addAuthHistory st0 nowStr "Password Login" false "Invalid credentials",
      [Effect.notify "Invalid username/email or password!" "error"])
  match findUser st.users uname with
  | none => failed st
  | some u =>
      if !(u.password = password) then failed st
      else
        let u1 := { u with
          lastLogin := some nowStr
          authHistory := u.authHistory ++
            [{ timestamp := nowStr, method := "Password Login",
               success := true, details := "Successful login" }] }
        let st1 := { st with
          users := mapSet st.users u.username u1
          currentUser := some u1
          isAuthenticated := true }
        let uname1 := u.username
        let next :=
          if u1.enrollmentComplete then navigate st1 "dashboard"
          else navigate st1 "enrollment"
        (next.1, Effect.notify (s!"Welcome back, {uname1}!") "success" :: next.2)

/-! ## Saving a signature (saveSignature, lines 681-736) -/

/-- saveSignature at the application level. Nothing to save aborts; no
session account makes the try block throw, caught as a failure message;
otherwise the sample built from the recorded chunks is pushed via
saveToAccount, the counter tracks the new length, and the chunks are
cleared for the next recording. The fresh object URL is the injected
parameter urlStr. -/
def saveSignature (st : AppState) (idStr urlStr nowStr : String) :
    AppState × List Effect :=
  if st.recordedChunks.isEmpty then
    (st, [Effect.notify "No recording to save!" "error"])
  else
    match st.currentUser with
    | none =>
        (st, [Effect.notify "Failed to save signature. Please try again." "error"])
    | some u =>
        let sig : SignatureSample :=
          { id := idStr
            videoUrl := urlStr
            blob := BlobRef.media st.recordedChunks
            timestamp := nowStr
            duration := st.recordedChunks.length }
        let u1 := saveToAccount u sig
        let count := u.signatures.length + 1
        let remaining : Int := 5 - (count : Int)
        ({ st with
            currentUser := some u1
            signatureCount := count
            recordedChunks := [] },
          Effect.notify (s!"Signature {count} saved! {remaining} more to go.")
              "success" ::
            (if 5 ≤ count then
              [Effect.notify
                "Enrollment complete! You can now use air signature authentication."
                "success"]
            else []))

/-! ## Simulated gesture authentication (lines 820-868)

The random source Math.random is the injected stream rng, consumed one
value per call in program order: call 0 decides the outcome, call 1 the
confidence. Values are rationals in [0,1) standing for the doubles of
the source; every comparison of the embedded arithmetic is exact. The
3000 ms delay suspends nothing observable and is dropped. -/

/-- Math.round for the nonnegative values arising here: the nearest
integer, halves rounding up. -/
def jround (x : ℚ) : ℤ :=
  Int.floor (x + 1/2)

/-- The outcome shown by simulateGestureRecognition. -/
structure AuthResult where
  success : Bool
  confidence : ℤ
  details : String
deriving DecidableEq, Repr

/-- The core of simulateGestureRecognition (lines 852-855): outcome and
confidence as functions of the two random draws. -/
def recognitionResult (rng : Nat → ℚ) : Bool × ℤ :=
  let isAuthenticated := decide (1/10 < rng 0)
  let confidence :=
    if isAuthenticated then jround (85 + rng 1 * 10)
    else jround (30 + rng 1 * 40)
  (isAuthenticated, confidence)

/-- simulateGestureRecognition (lines 847-868) acting on the session
account u: compute the outcome and the confidence, append the matching
history entry with method Air Signature, and report the result. -/
def simulateGestureRecognition (u : Account) (nowStr : String)
    (rng : Nat → ℚ) : Account × AuthResult :=
  let r := recognitionResult rng
  let isAuthenticated := r.1
  let confidence := r.2
  let detail :=
    if isAuthenticated then s!"{confidence}% confidence"
    else s!"Low confidence ({confidence}%)"
  let entry : AuthHistoryEntry :=
    { timestamp := nowStr, method := "Air Signature",
      success := isAuthenticated, details := detail }
  ({ u with authHistory := u.authHistory ++ [entry] },
    { success := isAuthenticated, confidence := confidence, details := detail })

/-- authenticateGesture (lines 820-845): reject and fall back to the
enrollment page without a fully enrolled session account; reject without
a camera stream; otherwise run the simulated recognition on the session
account. The option result is the completed attempt, none when the
attempt never ran. -/
def authenticateGesture (st : AppState) (nowStr : String) (rng : Nat → ℚ) :
    AppState × Option AuthResult × List Effect :=
  let enrolled := match st.currentUser with
    | some u => u.enrollmentComplete
    | none => false
  if !enrolled then
    let next := navigate st "enrollment"
    (next.1, none,
      Effect.notify "Please complete enrollment first!" "error" :: next.2)
  else if !st.webcamStream then
    (st, none, [Effect.notify "Please start the camera first!" "error"])
  else
    match st.currentUser with
    | none => (st, none, [])
    | some u =>
        let r := simulateGestureRecognition u nowStr rng
        ({ st with currentUser := some r.1 }, some r.2,
          [Effect.notify
            (if r.2.success then "Authentication successful!"
             else "Authentication failed. Please try again.")
            (if r.2.success then "success" else "error")])

/-! ## Persistence (loadUserData and saveUserData, lines 1007-1053)

The three localStorage keys hold JSON strings. The store is embedded by
the parse images of those strings: writing a record stores its
stringify-then-parse image, which is the record itself except that every
Blob becomes a plain empty object; reading takes the stored image as is.
The directory string is the entry array of the Map, read back through
the Map constructor. -/

/-- The state that the persistence layer round-trips: the directory and
the session (loadUserData lines 1013-1024). -/
structure PersistentState where
  users : Directory
  currentUser : Option Account
  isAuthenticated : Bool
deriving DecidableEq, Repr

/-- The three localStorage keys (absent key = none). -/
structure Store where
  airauthUsers : Option Directory
  airauthCurrentUser : Option Account
  airauthAuthenticated : Option String
deriving DecidableEq, Repr

/-- new Map(entries): insert the entries in order; a repeated key keeps
its first position and takes the last value, as the Map constructor
does. -/
def mapFromEntries (entries : Directory) : Directory :=
  entries.foldl (fun acc p => mapSet acc p.1 p.2) []

/-- saveUserData (lines 1034-1053): always write the entry array of the
directory; write the session snapshot and the authenticated flag when a
user is authenticated, remove both keys otherwise. Each stored value is
its JSON image. -/
def saveUserData (ps : PersistentState) (store : Store) : Store :=
  let store1 := { store with
    airauthUsers := some (ps.users.map
      (fun (p : String × Account) => (p.1, jsonRoundTripAccount p.2))) }
  match ps.currentUser with
  | some u =>
      if ps.isAuthenticated then
        { store1 with
          airauthCurrentUser := some (jsonRoundTripAccount u)
          airauthAuthenticated := some "true" }
      else
        { store1 with airauthCurrentUser := none, airauthAuthenticated := none }
  | none =>
      { store1 with airauthCurrentUser := none, airauthAuthenticated := none }

/-- loadUserData (lines 1007-1032) starting from the constructor state:
rebuild the Map from the stored entries when present; restore the
session only when both the snapshot and the "true" flag are present. -/
def loadUserData (store : Store) : PersistentState :=
  let users := match store.airauthUsers with
    | some entries => mapFromEntries entries
    | none => []
  match store.airauthCurrentUser, store.airauthAuthenticated with
  | some u, some flag =>
      if flag = "true" then
        { users := users, currentUser := some u, isAuthenticated := true }
      else
        { users := users, currentUser := none, isAuthenticated := false }
  | _, _ => { users := users, currentUser := none, isAuthenticated := false }

/-- An empty store. -/
def emptyStore : Store :=
  { airauthUsers := none, airauthCurrentUser := none, airauthAuthenticated := none }

/-- Serialize then reload. -/
def roundTripState (ps : PersistentState) : PersistentState :=
  loadUserData (saveUserData ps emptyStore)

/-- The reload image of a persistent state: every blob payload replaced
by the empty object, everything else untouched. -/
def eraseBlobs (ps : PersistentState) : PersistentState :=
  { users := ps.users.map (fun p => (p.1, jsonRoundTripAccount p.2))
    currentUser := ps.currentUser.map jsonRoundTripAccount
    isAuthenticated := ps.isAuthenticated }

/-! ## Concrete fixtures used by witnesses and counterexamples -/

/-- A concrete saved sample. -/
def sigSample (n : Nat) : SignatureSample :=
  { id := toString n, videoUrl := "url", blob := BlobRef.emptyObj,
    timestamp := "t", duration := 1 }

/-- n concrete saved samples. -/
def sigList (n : Nat) : List SignatureSample :=
  (List.range n).map sigSample

/-- A freshly registered concrete account. -/
def aliceAccount : Account :=
  freshAccount "1" "alice" "a@b.c" "password123" "t0"

/-- The concrete account one save short of enrollment. -/
def acct4 : Account :=
  { aliceAccount with signatures := sigList 4 }

/-- The concrete account with enrollment complete. -/
def acct5 : Account :=
  { aliceAccount with signatures := sigList 5, enrollmentComplete := true }

/-- App state holding one registered account and no session. -/
def stAlice : AppState :=
  { freshAppState with users := [("alice", aliceAccount)] }

/-- App state with an enrolled account in session and the camera
running. -/
def stEnrolled : AppState :=
  { freshAppState with
    users := [("alice", acct5)]
    currentUser := some acct5
    isAuthenticated := true
    webcamStream := true }

/-- The failure condition of handleLogin line 276: no account matches
the trimmed identifier, or the password differs. -/
def loginFails (users : Directory) (identifier password : String) : Bool :=
  match findUser users (jsTrim identifier) with
  | none => true
  | some u => !(u.password = password)

/-- App state with the concrete account in session. -/
def stAliceSession : AppState :=
  { stAlice with currentUser := some aliceAccount, isAuthenticated := true }

/-- A concrete account holding one signature whose blob still carries
recorded data. -/
def acctBlob : Account :=
  { aliceAccount with signatures :=
      [{ id := "1", videoUrl := "u", blob := BlobRef.media ["x"],
         timestamp := "t", duration := 1 }] }

/-- A concrete persistent state whose only account holds a data-carrying
blob. -/
def psBlob : PersistentState :=
  { users := [("alice", acctBlob)], currentUser := none,
    isAuthenticated := false }

/-! # Theorems -/

/-! ## C1: the enrollment flag tracks the signature count -/

/-- A fresh account satisfies the enrollment invariant. -/
theorem enrollInv_fresh (idStr uname mail pw nowStr : String) :
    enrollInv (freshAccount idStr uname mail pw nowStr) := by
  simp [enrollInv, freshAccount]

/-- saveToAccount preserves the enrollment invariant. -/
theorem enrollInv_save (a : Account) (sig : SignatureSample)
    (h : enrollInv a) : enrollInv (saveToAccount a sig) := by
  unfold enrollInv at h ⊢
  unfold saveToAccount
  by_cases h5 : 5 ≤ (a.signatures ++ [sig]).length
  · rw [if_pos h5]
    simpa using h5
  · rw [if_neg h5]
    simp only [List.length_append, List.length_cons, List.length_nil] at h5 ⊢
    constructor
    · intro hf
      exact absurd (Nat.le_succ_of_le (h.mp hf)) h5
    · intro h5'
      exact absurd h5' h5

/-- Every reachable account satisfies the enrollment invariant. -/
theorem reachable_enrollInv (a : Account) (h : AccountReachable a) :
    enrollInv a := by
  induction h with
  | registered idStr uname mail pw nowStr => exact enrollInv_fresh _ _ _ _ _
  | saved a sig _ ih => exact enrollInv_save a sig ih
  | loggedIn a nowStr _ ih => exact ih
  | historyAdded a e _ ih => exact ih
  | reloaded a _ ih =>
      unfold enrollInv at ih ⊢
      simpa [jsonRoundTripAccount] using ih

/-- Saving changes the flag exactly on the crossing from 4 to 5
signatures, and there it turns it from unset to set. -/
theorem save_flag_change (a : Account) (sig : SignatureSample)
    (h : enrollInv a) :
    (((saveToAccount a sig).enrollmentComplete ≠ a.enrollmentComplete) ↔
        a.signatures.length = 4)
    ∧ (a.signatures.length = 4 →
        a.enrollmentComplete = false ∧
          (saveToAccount a sig).enrollmentComplete = true) := by
  unfold enrollInv at h
  have hlen : (a.signatures ++ [sig]).length = a.signatures.length + 1 := by
    simp
  unfold saveToAccount
  by_cases h5 : 5 ≤ (a.signatures ++ [sig]).length
  · rw [if_pos h5]
    rw [hlen] at h5
    dsimp only
    cases hf : a.enrollmentComplete
    · have hnot : ¬ 5 ≤ a.signatures.length := by
        intro hy
        have h2 := h.mpr hy
        rw [hf] at h2
        exact Bool.false_ne_true h2
      refine ⟨⟨fun _ => by omega, fun _ => by simp⟩, fun _ => ⟨rfl, rfl⟩⟩
    · have h5l := h.mp hf
      refine ⟨⟨fun hne => absurd rfl hne, fun h4 => absurd h5l (by omega)⟩,
        fun h4 => absurd h5l (by omega)⟩
  · rw [if_neg h5]
    rw [hlen] at h5
    dsimp only
    exact ⟨⟨fun hne => absurd rfl hne, fun h4 => absurd h4 (by omega)⟩,
      fun h4 => absurd h4 (by omega)⟩

/-- C1: for every account arising in the application, the
enrollment-complete flag is set exactly when the account holds at least
5 signature samples; a save flips the flag exactly on the crossing from
4 to 5 saved signatures, where it goes from unset to set, and every
other save leaves its value unchanged. -/
theorem c1_enrollment_flag :
    (∀ a, AccountReachable a →
      (a.enrollmentComplete = true ↔ 5 ≤ a.signatures.length))
    ∧ (∀ a sig, enrollInv a →
        ((((saveToAccount a sig).enrollmentComplete ≠ a.enrollmentComplete) ↔
            a.signatures.length = 4)
          ∧ (a.signatures.length = 4 →
              a.enrollmentComplete = false ∧
                (saveToAccount a sig).enrollmentComplete = true))) :=
  ⟨fun a h => reachable_enrollInv a h, fun a sig h => save_flag_change a sig h⟩

/-- Witness for C1 at concrete inputs: a fresh account, and the save
that crosses from 4 to 5 samples. -/
theorem c1_enrollment_flag_witness :
    ((freshAccount "1" "alice" "a@b.c" "password123" "t0").enrollmentComplete = true ↔
        5 ≤ (freshAccount "1" "alice" "a@b.c" "password123" "t0").signatures.length)
    ∧ ((((saveToAccount acct4 (sigSample 4)).enrollmentComplete ≠
            acct4.enrollmentComplete) ↔ acct4.signatures.length = 4)
        ∧ (acct4.signatures.length = 4 →
            acct4.enrollmentComplete = false ∧
              (saveToAccount acct4 (sigSample 4)).enrollmentComplete = true)) :=
  ⟨c1_enrollment_flag.1 _
      (AccountReachable.registered "1" "alice" "a@b.c" "password123" "t0"),
    c1_enrollment_flag.2 acct4 (sigSample 4) (by unfold enrollInv; decide)⟩

/-! ## C10: saving past five samples still appends and keeps the flag -/

/-- C10: when the session account already holds 5 or more samples, a
save of a recorded signature is not rejected and not capped: the new
sample is appended and the enrollment flag stays set. -/
theorem c10_save_beyond_five (st : AppState) (u : Account)
    (idStr urlStr nowStr : String)
    (hcu : st.currentUser = some u) (hchunks : st.recordedChunks ≠ [])
    (hlen : 5 ≤ u.signatures.length) :
    (saveSignature st idStr urlStr nowStr).1.currentUser =
      some { u with
        signatures := u.signatures ++
          [{ id := idStr, videoUrl := urlStr,
             blob := BlobRef.media st.recordedChunks,
             timestamp := nowStr, duration := st.recordedChunks.length }]
        enrollmentComplete := true } := by
  unfold saveSignature
  have hne : st.recordedChunks.isEmpty = false := by
    cases hx : st.recordedChunks
    · exact absurd hx hchunks
    · rfl
  rw [hne]
  simp only [Bool.false_eq_true, if_false, hcu]
  unfold saveToAccount
  have h5 : 5 ≤ (u.signatures ++
      [({ id := idStr, videoUrl := urlStr,
          blob := BlobRef.media st.recordedChunks,
          timestamp := nowStr,
          duration := st.recordedChunks.length } : SignatureSample)]).length := by
    simp only [List.length_append, List.length_cons, List.length_nil]
    omega
  rw [if_pos h5]

/-- Witness for C10: a sixth save on the concrete enrolled account. -/
theorem c10_save_beyond_five_witness :
    (saveSignature { stEnrolled with recordedChunks := ["chunk"] }
        "6" "url6" "t6").1.currentUser =
      some { acct5 with
        signatures := acct5.signatures ++
          [{ id := "6", videoUrl := "url6",
             blob := BlobRef.media ["chunk"],
             timestamp := "t6", duration := 1 }]
        enrollmentComplete := true } :=
  c10_save_beyond_five { stEnrolled with recordedChunks := ["chunk"] }
    acct5 "6" "url6" "t6" (by decide) (by decide) (by decide)

/-! ## C2 and C7: the simulated authentication attempt -/

/-- Running authenticateGesture with an enrolled session account and the
camera on reaches the simulated recognition and stores its updated
account. -/
theorem authenticateGesture_run (st : AppState) (u : Account)
    (nowStr : String) (rng : Nat → ℚ) (hcu : st.currentUser = some u)
    (henr : u.enrollmentComplete = true) (hcam : st.webcamStream = true) :
    authenticateGesture st nowStr rng =
      ({ st with currentUser := some (simulateGestureRecognition u nowStr rng).1 },
        some (simulateGestureRecognition u nowStr rng).2,
        [Effect.notify
          (if (simulateGestureRecognition u nowStr rng).2.success then
            "Authentication successful!"
           else "Authentication failed. Please try again.")
          (if (simulateGestureRecognition u nowStr rng).2.success then "success"
           else "error")]) := by
  unfold authenticateGesture
  rw [hcu, hcam]
  simp [henr]

/-- The recognition core on the source forced to 0.05. -/
theorem recognitionResult_low :
    recognitionResult (fun _ => (1:ℚ)/20) = (false, 32) := by
  unfold recognitionResult jround
  norm_num

/-- The recognition core on the source forced to 0.5. -/
theorem recognitionResult_mid :
    recognitionResult (fun _ => (1:ℚ)/2) = (true, 90) := by
  unfold recognitionResult jround
  norm_num

/-- C2: for an enrolled session account with the camera running, an
attempt whose random source always returns 0.05 completes as a failure
with confidence in [30, 70], and one whose source always returns 0.5
completes as a success with confidence in [85, 95]. -/
theorem c2_forced_random (st : AppState) (u : Account) (nowStr : String)
    (hcu : st.currentUser = some u) (henr : u.enrollmentComplete = true)
    (hcam : st.webcamStream = true) :
    (∃ r, (authenticateGesture st nowStr (fun _ => (1:ℚ)/20)).2.1 = some r ∧
        r.success = false ∧ 30 ≤ r.confidence ∧ r.confidence ≤ 70)
    ∧ (∃ r, (authenticateGesture st nowStr (fun _ => (1:ℚ)/2)).2.1 = some r ∧
        r.success = true ∧ 85 ≤ r.confidence ∧ r.confidence ≤ 95) := by
  have hs1 : (simulateGestureRecognition u nowStr
      (fun _ => (1:ℚ)/20)).2.success = false := by
    show (recognitionResult (fun _ => (1:ℚ)/20)).1 = false
    rw [recognitionResult_low]
  have hc1 : (simulateGestureRecognition u nowStr
      (fun _ => (1:ℚ)/20)).2.confidence = 32 := by
    show (recognitionResult (fun _ => (1:ℚ)/20)).2 = 32
    rw [recognitionResult_low]
  have hs2 : (simulateGestureRecognition u nowStr
      (fun _ => (1:ℚ)/2)).2.success = true := by
    show (recognitionResult (fun _ => (1:ℚ)/2)).1 = true
    rw [recognitionResult_mid]
  have hc2 : (simulateGestureRecognition u nowStr
      (fun _ => (1:ℚ)/2)).2.confidence = 90 := by
    show (recognitionResult (fun _ => (1:ℚ)/2)).2 = 90
    rw [recognitionResult_mid]
  constructor
  · rw [authenticateGesture_run st u nowStr _ hcu henr hcam]
    exact ⟨_, rfl, hs1, by rw [hc1]; norm_num, by rw [hc1]; norm_num⟩
  · rw [authenticateGesture_run st u nowStr _ hcu henr hcam]
    exact ⟨_, rfl, hs2, by rw [hc2]; norm_num, by rw [hc2]; norm_num⟩

/-- Witness for C2 on the concrete enrolled state. -/
theorem c2_forced_random_witness :
    ((∃ r, (authenticateGesture stEnrolled "t1" (fun _ => (1:ℚ)/20)).2.1 = some r ∧
        r.success = false ∧ 30 ≤ r.confidence ∧ r.confidence ≤ 70)
      ∧ (∃ r, (authenticateGesture stEnrolled "t1" (fun _ => (1:ℚ)/2)).2.1 = some r ∧
          r.success = true ∧ 85 ≤ r.confidence ∧ r.confidence ≤ 95)) :=
  c2_forced_random stEnrolled acct5 "t1" (by decide) (by decide) (by decide)

/-- C7 as stated fails on the method tag: the history entry appended by
a completed attempt carries the literal method string Air Signature of
addAuthHistory call sites (lines 860 and 865), not the string gesture.
Concretely, after one completed successful attempt the history methods
read Air Signature. -/
theorem c7_gesture_history_cex :
    ((authenticateGesture stEnrolled "t1" (fun _ => (1:ℚ)/2)).1.currentUser.map
        (fun a => a.authHistory.map (fun e => e.method))) = some ["Air Signature"]
    ∧ ((authenticateGesture stEnrolled "t1" (fun _ => (1:ℚ)/2)).1.currentUser.map
        (fun a => a.authHistory.map (fun e => e.method))) ≠ some ["gesture"] := by
  rw [authenticateGesture_run stEnrolled acct5 "t1" (fun _ => (1:ℚ)/2)
    (by decide) (by decide) (by decide)]
  constructor
  · simp [simulateGestureRecognition, acct5, aliceAccount, freshAccount]
  · simp [simulateGestureRecognition, acct5, aliceAccount, freshAccount]

/-- C7 amended: every completed attempt, whatever the random draws,
appends exactly one history entry to the session account, with method
tag Air Signature, the boolean outcome, and a detail string embedding
the confidence value. -/
theorem c7_gesture_history (st : AppState) (u : Account) (nowStr : String)
    (rng : Nat → ℚ) (hcu : st.currentUser = some u)
    (henr : u.enrollmentComplete = true) (hcam : st.webcamStream = true) :
    ∃ r, (authenticateGesture st nowStr rng).2.1 = some r ∧
      (authenticateGesture st nowStr rng).1.currentUser = some
        { u with authHistory := u.authHistory ++
            [{ timestamp := nowStr, method := "Air Signature",
               success := r.success,
               details := if r.success then s!"{r.confidence}% confidence"
                 else s!"Low confidence ({r.confidence}%)" }] } := by
  rw [authenticateGesture_run st u nowStr rng hcu henr hcam]
  refine ⟨_, rfl, ?_⟩
  simp [simulateGestureRecognition]

/-- Witness for C7 on the concrete enrolled state. -/
theorem c7_gesture_history_witness :
    ∃ r, (authenticateGesture stEnrolled "t1" (fun _ => (1:ℚ)/2)).2.1 = some r ∧
      (authenticateGesture stEnrolled "t1" (fun _ => (1:ℚ)/2)).1.currentUser = some
        { acct5 with authHistory := acct5.authHistory ++
            [{ timestamp := "t1", method := "Air Signature",
               success := r.success,
               details := if r.success then s!"{r.confidence}% confidence"
                 else s!"Low confidence ({r.confidence}%)" }] } :=
  c7_gesture_history stEnrolled acct5 "t1" (fun _ => (1:ℚ)/2)
    (by decide) (by decide) (by decide)

/-! ## C3: failed logins -/

/-- addAuthHistory without a session account changes nothing. -/
theorem addAuthHistory_none (st : AppState) (nowStr method : String)
    (success : Bool) (details : String) (h : st.currentUser = none) :
    addAuthHistory st nowStr method success details = st := by
  unfold addAuthHistory
  rw [h]

/-- addAuthHistory with a session account appends one entry to it. -/
theorem addAuthHistory_some (st : AppState) (u : Account)
    (nowStr method : String) (success : Bool) (details : String)
    (h : st.currentUser = some u) :
    addAuthHistory st nowStr method success details =
      { st with
        currentUser := some (pushHistory u nowStr method success details) } := by
  unfold addAuthHistory
  rw [h]

/-- A failing login runs the shared failure path. -/
theorem handleLogin_fail (st : AppState) (identifier password nowStr : String)
    (hfail : loginFails st.users identifier password = true) :
    handleLogin st identifier password nowStr =
      (addAuthHistory st nowStr "Password Login" false "Invalid credentials",
        [Effect.notify "Invalid username/email or password!" "error"]) := by
  unfold loginFails at hfail
  unfold handleLogin
  cases hf : findUser st.users (jsTrim identifier) with
  | none => simp only [hf]
  | some u =>
      rw [hf] at hfail
      dsimp only at hfail
      simp only [hf]
      rw [if_pos hfail]

/-- C3 as stated fails on the code: with no active session, a login
attempt against a registered account with a wrong password appends no
history entry at all (addAuthHistory line 1056 returns when
this.currentUser is null), so the attempted account keeps an empty
history; the session stays unauthenticated. -/
theorem c3_failed_login_cex :
    ((mapGet (handleLogin stAlice "alice" "wrong" "t1").1.users "alice").map
        (fun a => a.authHistory)) = some []
    ∧ (handleLogin stAlice "alice" "wrong" "t1").1.currentUser = none
    ∧ (handleLogin stAlice "alice" "wrong" "t1").1.isAuthenticated = false := by
  decide

/-- C3 amended: a login with an unknown identifier or a wrong password
leaves the authenticated flag as it was; with no session account nothing
is appended anywhere (the directory is untouched and the session stays
empty); with a session account, one failed entry with method tag
Password Login and detail Invalid credentials is appended to that
session account, not to the attempted one. -/
theorem c3_failed_login (st : AppState) (identifier password nowStr : String)
    (hfail : loginFails st.users identifier password = true) :
    (handleLogin st identifier password nowStr).1.isAuthenticated =
        st.isAuthenticated
    ∧ (st.currentUser = none →
        (handleLogin st identifier password nowStr).1.users = st.users
        ∧ (handleLogin st identifier password nowStr).1.currentUser = none)
    ∧ (∀ cu, st.currentUser = some cu →
        (handleLogin st identifier password nowStr).1.currentUser =
          some (pushHistory cu nowStr "Password Login" false
            "Invalid credentials")) := by
  rw [handleLogin_fail st identifier password nowStr hfail]
  refine ⟨?_, ?_, ?_⟩
  · cases hcu : st.currentUser with
    | none => rw [addAuthHistory_none st _ _ _ _ hcu]
    | some cu => rw [addAuthHistory_some st cu _ _ _ _ hcu]
  · intro hcu
    rw [addAuthHistory_none st _ _ _ _ hcu]
    exact ⟨rfl, hcu⟩
  · intro cu hcu
    rw [addAuthHistory_some st cu _ _ _ _ hcu]

/-- Witness for C3 amended: wrong password against the concrete account
while that same account is in session. -/
theorem c3_failed_login_witness :
    (handleLogin stAliceSession "alice" "wrong" "t1").1.isAuthenticated =
        stAliceSession.isAuthenticated
    ∧ (handleLogin stAliceSession "alice" "wrong" "t1").1.currentUser =
        some (pushHistory aliceAccount "t1" "Password Login" false
          "Invalid credentials") :=
  ⟨(c3_failed_login stAliceSession "alice" "wrong" "t1" (by decide)).1,
    (c3_failed_login stAliceSession "alice" "wrong" "t1" (by decide)).2.2
      aliceAccount rfl⟩

/-! ## C4 and C9: navigation guards -/

/-- Navigating to the enrollment page always lands on it. -/
theorem navigate_enrollment_currentPage (st : AppState) :
    (navigate st "enrollment").1.currentPage = "enrollment" := by
  unfold navigate showPageAux
  rw [if_pos (show "enrollment" ∈ pageIds by decide)]
  rw [if_neg (show ¬ "enrollment" = "dashboard" by decide)]
  rw [if_pos (show "enrollment" = "enrollment" from rfl)]
  unfold resetEnrollment stopCamera
  split <;> rfl

/-- C4 as stated fails on the code: a direct navigation request to the
auth-test page with no active session (hence no enrolled account) is not
redirected; showPage installs auth-test and resetAuthTest performs no
guard (lines 185-203 and 895-905). -/
theorem c4_authtest_guard_cex :
    (navigate freshAppState "auth-test").1.currentPage = "auth-test"
    ∧ (navigate freshAppState "auth-test").1.currentPage ≠ "enrollment" := by
  decide

/-- C4 amended: the guarded entry to the auth test is the air-auth
action (handleAirAuth): when no user is in session or the session
account is not enrolled, it resolves to the enrollment page; direct page
navigation to auth-test carries no guard. -/
theorem c4_airauth_guard (st : AppState)
    (h : (match st.currentUser with
          | some u => u.enrollmentComplete
          | none => false) = false) :
    (handleAirAuth st).1.currentPage = "enrollment" := by
  unfold handleAirAuth
  rw [h]
  exact navigate_enrollment_currentPage st

/-- Witness for C4 amended: the air-auth action with no session. -/
theorem c4_airauth_guard_witness :
    (handleAirAuth freshAppState).1.currentPage = "enrollment" :=
  c4_airauth_guard freshAppState (by decide)

/-- C9: navigating to the dashboard with no session account resolves to
the login page and performs none of the dashboard-only entry actions. -/
theorem c9_dashboard_guard (st : AppState) (hcu : st.currentUser = none) :
    (navigate st "dashboard").1.currentPage = "login"
    ∧ Effect.updateProfileInfo ∉ (navigate st "dashboard").2
    ∧ Effect.updateAuthStats ∉ (navigate st "dashboard").2
    ∧ Effect.updateAuthHistoryTable ∉ (navigate st "dashboard").2 := by
  unfold navigate
  simp [showPageAux, hcu, pageIds]

/-- Witness for C9: the dashboard request on the constructor state. -/
theorem c9_dashboard_guard_witness :
    (navigate freshAppState "dashboard").1.currentPage = "login"
    ∧ Effect.updateProfileInfo ∉ (navigate freshAppState "dashboard").2
    ∧ Effect.updateAuthStats ∉ (navigate freshAppState "dashboard").2
    ∧ Effect.updateAuthHistoryTable ∉ (navigate freshAppState "dashboard").2 :=
  c9_dashboard_guard freshAppState rfl

/-! ## C5 and C6: registration -/

/-- hasKey spelled out over the members. -/
theorem hasKey_eq_false_iff (l : Directory) (k : String) :
    hasKey l k = false ↔ ∀ p ∈ l, ¬ p.1 = k := by
  unfold hasKey
  simp [List.any_eq_false]

/-- The key lookup finds a freshly appended entry. -/
theorem mapGet_append_fresh (l : Directory) (k : String) (v : Account)
    (h : hasKey l k = false) : mapGet (l ++ [(k, v)]) k = some v := by
  unfold mapGet
  rw [List.find?_append]
  have h1 : l.find? (fun p => p.1 = k) = none := by
    rw [List.find?_eq_none]
    intro p hp
    simpa using (hasKey_eq_false_iff l k).mp h p hp
  rw [h1]
  simp

/-- The key lookup misses a list none of whose keys matches. -/
theorem mapGet_append_none (l : Directory) (k : String) (v : Account)
    (q : String) (hq1 : ∀ p ∈ l, ¬ p.1 = q) (hq2 : ¬ k = q) :
    mapGet (l ++ [(k, v)]) q = none := by
  unfold mapGet
  rw [List.find?_append]
  have h1 : l.find? (fun p => p.1 = q) = none := by
    rw [List.find?_eq_none]
    intro p hp
    simpa using hq1 p hp
  have h2 : List.find? (fun p => p.1 = q) [(k, v)] = none := by
    rw [List.find?_eq_none]
    intro p hp
    simp only [List.mem_singleton] at hp
    subst hp
    simpa using hq2
  rw [h1, h2]
  rfl

/-- The email lookup finds a freshly appended account when no earlier
account carries the email. -/
theorem emailFind_append (l : Directory) (k : String) (v : Account)
    (e : String) (h : ∀ p ∈ l, ¬ p.2.email = e) (hv : v.email = e) :
    emailFind (l ++ [(k, v)]) e = some v := by
  unfold emailFind
  rw [List.find?_append]
  have h1 : l.find? (fun p => p.2.email = e) = none := by
    rw [List.find?_eq_none]
    intro p hp
    simpa using h p hp
  rw [h1]
  simp [hv]

/-- A passing username validation gives its three conditions. -/
theorem validateUsername_parts (users : Directory) (uname : String)
    (h : (validateUsernameMsg users uname).1 = true) :
    ¬ uname.length < 3 ∧ usernameCharsOk uname = true
    ∧ hasKey users uname = false := by
  unfold validateUsernameMsg at h
  by_cases h1 : uname.length < 3
  · rw [if_pos h1] at h
    simp at h
  · rw [if_neg h1] at h
    cases hc : usernameCharsOk uname with
    | false =>
        rw [hc] at h
        simp at h
    | true =>
        rw [hc] at h
        simp only [Bool.not_true, Bool.false_eq_true, if_false] at h
        cases hk : hasKey users uname with
        | true =>
            rw [hk] at h
            simp at h
        | false => exact ⟨h1, rfl, rfl⟩

/-- A passing email validation gives its two conditions. -/
theorem validateEmail_parts (users : Directory) (mail : String)
    (h : (validateEmailMsg users mail).1 = true) :
    emailOk mail = true ∧ emailTaken users mail = false := by
  unfold validateEmailMsg at h
  cases ho : emailOk mail with
  | false =>
      rw [ho] at h
      simp at h
  | true =>
      rw [ho] at h
      simp only [Bool.not_true, Bool.false_eq_true, if_false] at h
      cases ht : emailTaken users mail with
      | true =>
          rw [ht] at h
          simp at h
      | false => exact ⟨rfl, rfl⟩

/-- A passing form validation gives all four component validations. -/
theorem validateForm_parts (users : Directory)
    (uname mail password confirmPassword : String)
    (h : validateRegistrationForm users uname mail password confirmPassword
      = true) :
    (validateUsernameMsg users uname).1 = true
    ∧ (validateEmailMsg users mail).1 = true
    ∧ (validatePasswordMsg password).1 = true
    ∧ (validateConfirmMsg confirmPassword password).1 = true := by
  unfold validateRegistrationForm at h
  simp only [Bool.and_eq_true] at h
  exact ⟨h.1.1.1, h.1.1.2, h.1.2, h.2⟩

/-- A split at the first at sign proves its presence. -/
theorem breakAtSign_has_at (l : List Char) (p : List Char × List Char)
    (h : breakAtSign l = some p) : '@' ∈ l := by
  induction l generalizing p with
  | nil => cases h
  | cons c rest ih =>
      unfold breakAtSign at h
      by_cases hc : c = '@'
      · rw [hc]
        exact List.mem_cons_self _ _
      · rw [if_neg hc] at h
        cases hb : breakAtSign rest with
        | none =>
            rw [hb] at h
            cases h
        | some q => exact List.mem_cons_of_mem _ (ih q hb)

/-- A string accepted by the email pattern contains an at sign. -/
theorem emailOk_has_at (s : String) (h : emailOk s = true) :
    '@' ∈ s.toList := by
  unfold emailOk at h
  cases hb : breakAtSign s.toList with
  | none =>
      rw [hb] at h
      cases h
  | some p => exact breakAtSign_has_at _ p hb

/-- A string accepted by the username pattern has no at sign. -/
theorem usernameCharsOk_no_at (s : String) (h : usernameCharsOk s = true) :
    '@' ∉ s.toList := by
  unfold usernameCharsOk at h
  rw [Bool.and_eq_true] at h
  intro hm
  have hw := List.all_eq_true.mp h.2 '@' hm
  exact absurd hw (by decide)

/-- A valid username never equals a valid email. -/
theorem username_ne_email (u m : String) (hu : usernameCharsOk u = true)
    (hm : emailOk m = true) : ¬ u = m := by
  intro he
  subst he
  exact usernameCharsOk_no_at u hu (emailOk_has_at u hm)

/-- A valid registration takes the success branch. -/
theorem handleRegistration_success (st : AppState)
    (username email password confirmPassword idStr nowStr : String)
    (hv : validateRegistrationForm st.users (jsTrim username) (jsTrim email)
        password confirmPassword = true) :
    handleRegistration st username email password confirmPassword idStr nowStr =
      (let newUser := freshAccount idStr (jsTrim username) (jsTrim email)
        password nowStr
      let st1 : AppState := { st with
        users := st.users ++ [(jsTrim username, newUser)]
        currentUser := some newUser
        isAuthenticated := true }
      let next := navigate st1 "enrollment"
      (next.1,
        regFieldEffects st.users (jsTrim username) (jsTrim email) password
            confirmPassword ++
          Effect.notify "Registration successful! Please complete enrollment."
            "success" :: next.2)) := by
  obtain ⟨hu, he, hp, hc⟩ :=
    validateForm_parts st.users (jsTrim username) (jsTrim email) password
      confirmPassword hv
  obtain ⟨_, _, hkey⟩ := validateUsername_parts st.users (jsTrim username) hu
  obtain ⟨_, htaken⟩ := validateEmail_parts st.users (jsTrim email) he
  unfold handleRegistration
  simp only [hv, Bool.not_true, Bool.false_eq_true, if_false, hkey, htaken,
    Bool.or_self]
  unfold mapSet
  simp only [hkey, Bool.false_eq_true, if_false]

/-- Navigating to the enrollment page keeps the directory and the
session. -/
theorem navigate_enrollment_core (st : AppState) :
    (navigate st "enrollment").1.users = st.users
    ∧ (navigate st "enrollment").1.currentUser = st.currentUser
    ∧ (navigate st "enrollment").1.isAuthenticated = st.isAuthenticated := by
  unfold navigate showPageAux
  rw [if_pos (show "enrollment" ∈ pageIds by decide)]
  rw [if_neg (show ¬ "enrollment" = "dashboard" by decide)]
  rw [if_pos (show "enrollment" = "enrollment" from rfl)]
  unfold resetEnrollment stopCamera
  split <;> exact ⟨rfl, rfl, rfl⟩

/-- C5: a valid registration (in a directory whose keys are well-formed
usernames) creates an account with no signatures and no history, stores
it so that it is found both under its username and under its email, and
makes it the authenticated session. -/
theorem c5_registration_success (st : AppState)
    (username email password confirmPassword idStr nowStr : String)
    (hwf : st.users.all (fun p => usernameCharsOk p.1) = true)
    (hv : validateRegistrationForm st.users (jsTrim username) (jsTrim email)
        password confirmPassword = true) :
    (freshAccount idStr (jsTrim username) (jsTrim email) password
        nowStr).signatures = []
    ∧ (freshAccount idStr (jsTrim username) (jsTrim email) password
        nowStr).authHistory = []
    ∧ findUser (handleRegistration st username email password confirmPassword
          idStr nowStr).1.users (jsTrim username) =
        some (freshAccount idStr (jsTrim username) (jsTrim email) password
          nowStr)
    ∧ findUser (handleRegistration st username email password confirmPassword
          idStr nowStr).1.users (jsTrim email) =
        some (freshAccount idStr (jsTrim username) (jsTrim email) password
          nowStr)
    ∧ (handleRegistration st username email password confirmPassword idStr
          nowStr).1.currentUser =
        some (freshAccount idStr (jsTrim username) (jsTrim email) password
          nowStr)
    ∧ (handleRegistration st username email password confirmPassword idStr
          nowStr).1.isAuthenticated = true := by
  obtain ⟨hu, he, hp, hc⟩ :=
    validateForm_parts st.users (jsTrim username) (jsTrim email) password
      confirmPassword hv
  obtain ⟨_, hchars, hkey⟩ := validateUsername_parts st.users (jsTrim username) hu
  obtain ⟨hok, htaken⟩ := validateEmail_parts st.users (jsTrim email) he
  rw [handleRegistration_success st username email password confirmPassword
    idStr nowStr hv]
  dsimp only
  obtain ⟨hnavu, hnavc, hnava⟩ := navigate_enrollment_core
    { st with
      users := st.users ++ [(jsTrim username,
        freshAccount idStr (jsTrim username) (jsTrim email) password nowStr)]
      currentUser := some (freshAccount idStr (jsTrim username) (jsTrim email)
        password nowStr)
      isAuthenticated := true }
  rw [hnavu, hnavc, hnava]
  have hother : ∀ p ∈ st.users, ¬ p.1 = jsTrim email := by
    intro p hp
    exact username_ne_email p.1 (jsTrim email)
      (List.all_eq_true.mp hwf p hp) hok
  have hmailkeys : mapGet (st.users ++ [(jsTrim username,
      freshAccount idStr (jsTrim username) (jsTrim email) password nowStr)])
      (jsTrim email) = none :=
    mapGet_append_none st.users (jsTrim username) _ (jsTrim email) hother
      (username_ne_email (jsTrim username) (jsTrim email) hchars hok)
  have hmailfree : ∀ p ∈ st.users, ¬ p.2.email = jsTrim email := by
    intro p hp
    intro hmail
    have : emailTaken st.users (jsTrim email) = true := by
      unfold emailTaken
      rw [List.any_eq_true]
      exact ⟨p, hp, by simpa using hmail⟩
    rw [this] at htaken
    cases htaken
  refine ⟨rfl, rfl, ?_, ?_, rfl, rfl⟩
  · unfold findUser
    rw [mapGet_append_fresh st.users (jsTrim username) _ hkey]
    rfl
  · unfold findUser
    rw [hmailkeys]
    rw [emailFind_append st.users (jsTrim username) _ (jsTrim email)
      hmailfree rfl]
    rfl

/-- Witness for C5: the first registration on the constructor state. -/
theorem c5_registration_success_witness :
    (freshAccount "1" (jsTrim "alice") (jsTrim "a@b.c") "password123"
        "t0").signatures = []
    ∧ (freshAccount "1" (jsTrim "alice") (jsTrim "a@b.c") "password123"
        "t0").authHistory = []
    ∧ findUser (handleRegistration freshAppState "alice" "a@b.c" "password123"
          "password123" "1" "t0").1.users (jsTrim "alice") =
        some (freshAccount "1" (jsTrim "alice") (jsTrim "a@b.c") "password123"
          "t0")
    ∧ findUser (handleRegistration freshAppState "alice" "a@b.c" "password123"
          "password123" "1" "t0").1.users (jsTrim "a@b.c") =
        some (freshAccount "1" (jsTrim "alice") (jsTrim "a@b.c") "password123"
          "t0")
    ∧ (handleRegistration freshAppState "alice" "a@b.c" "password123"
          "password123" "1" "t0").1.currentUser =
        some (freshAccount "1" (jsTrim "alice") (jsTrim "a@b.c") "password123"
          "t0")
    ∧ (handleRegistration freshAppState "alice" "a@b.c" "password123"
          "password123" "1" "t0").1.isAuthenticated = true :=
  c5_registration_success freshAppState "alice" "a@b.c" "password123"
    "password123" "1" "t0" (by decide) (by decide)

/-- A duplicate username forces the username validation to fail. -/
theorem validateUsername_dup (users : Directory) (uname : String)
    (h : hasKey users uname = true) :
    (validateUsernameMsg users uname).1 = false := by
  unfold validateUsernameMsg
  by_cases h1 : uname.length < 3
  · rw [if_pos h1]
  · rw [if_neg h1]
    cases hc : usernameCharsOk uname with
    | false => simp
    | true =>
        simp only [Bool.not_true, Bool.false_eq_true, if_false]
        rw [h]
        simp

/-- A taken email forces the email validation to fail. -/
theorem validateEmail_dup (users : Directory) (mail : String)
    (h : emailTaken users mail = true) :
    (validateEmailMsg users mail).1 = false := by
  unfold validateEmailMsg
  cases ho : emailOk mail with
  | false => simp
  | true =>
      simp only [Bool.not_true, Bool.false_eq_true, if_false]
      rw [h]
      simp

/-- A duplicate makes the whole form validation fail. -/
theorem validateForm_dup (users : Directory)
    (uname mail password confirmPassword : String)
    (hdup : hasKey users uname = true ∨ emailTaken users mail = true) :
    validateRegistrationForm users uname mail password confirmPassword
      = false := by
  unfold validateRegistrationForm
  cases hdup with
  | inl h => rw [validateUsername_dup users uname h]; simp
  | inr h => rw [validateEmail_dup users mail h]; simp

/-- C6: a registration whose trimmed username or email is already in the
directory leaves the whole application state unchanged, and the
already-exists error message for the conflicting field is reported when
that field is otherwise well formed. -/
theorem c6_duplicate_registration (st : AppState)
    (username email password confirmPassword idStr nowStr : String)
    (hdup : hasKey st.users (jsTrim username) = true
      ∨ emailTaken st.users (jsTrim email) = true) :
    (handleRegistration st username email password confirmPassword idStr
        nowStr).1 = st
    ∧ (¬ (jsTrim username).length < 3 →
        usernameCharsOk (jsTrim username) = true →
        hasKey st.users (jsTrim username) = true →
        Effect.fieldError "username" "Username already exists" ∈
          (handleRegistration st username email password confirmPassword idStr
            nowStr).2)
    ∧ (emailOk (jsTrim email) = true →
        emailTaken st.users (jsTrim email) = true →
        Effect.fieldError "email" "Email already registered" ∈
          (handleRegistration st username email password confirmPassword idStr
            nowStr).2) := by
  have hval := validateForm_dup st.users (jsTrim username) (jsTrim email)
    password confirmPassword hdup
  have hreg : handleRegistration st username email password confirmPassword
      idStr nowStr =
      (st, regFieldEffects st.users (jsTrim username) (jsTrim email) password
        confirmPassword) := by
    unfold handleRegistration
    simp [hval]
  rw [hreg]
  refine ⟨rfl, ?_, ?_⟩
  · intro h1 h2 h3
    have hmsg : (validateUsernameMsg st.users (jsTrim username)).2 =
        "Username already exists" := by
      unfold validateUsernameMsg
      rw [if_neg h1, h2]
      simp only [Bool.not_true, Bool.false_eq_true, if_false]
      rw [h3]
      rfl
    unfold regFieldEffects
    rw [hmsg]
    exact List.mem_cons_self _ _
  · intro h1 h2
    have hmsg : (validateEmailMsg st.users (jsTrim email)).2 =
        "Email already registered" := by
      unfold validateEmailMsg
      rw [h1]
      simp only [Bool.not_true, Bool.false_eq_true, if_false]
      rw [h2]
      rfl
    unfold regFieldEffects
    rw [hmsg]
    exact List.mem_cons_of_mem _ (List.mem_cons_self _ _)

/-- Witness for C6: re-registering the concrete username. -/
theorem c6_duplicate_registration_witness :
    (handleRegistration stAlice "alice" "x@y.z" "password123" "password123"
        "9" "t9").1 = stAlice
    ∧ Effect.fieldError "username" "Username already exists" ∈
        (handleRegistration stAlice "alice" "x@y.z" "password123"
          "password123" "9" "t9").2 :=
  ⟨(c6_duplicate_registration stAlice "alice" "x@y.z" "password123"
      "password123" "9" "t9" (Or.inl (by decide))).1,
    (c6_duplicate_registration stAlice "alice" "x@y.z" "password123"
      "password123" "9" "t9" (Or.inl (by decide))).2.1 (by decide) (by decide)
      (by decide)⟩

/-! ## C8: persistence round trip -/

/-- hasKey distributes over append. -/
theorem hasKey_append (l1 l2 : Directory) (k : String) :
    hasKey (l1 ++ l2) k = (hasKey l1 k || hasKey l2 k) := by
  unfold hasKey
  exact List.any_append

/-- Inserting entries with fresh, pairwise distinct keys appends them in
order. -/
theorem foldl_mapSet_fresh (l : Directory) (acc : Directory)
    (h : ∀ p ∈ l, hasKey acc p.1 = false)
    (hnd : (l.map Prod.fst).Nodup) :
    l.foldl (fun a q => mapSet a q.1 q.2) acc = acc ++ l := by
  induction l generalizing acc with
  | nil => simp
  | cons q rest ih =>
      simp only [List.foldl_cons]
      have hq : hasKey acc q.1 = false := h q (List.mem_cons_self _ _)
      have hset : mapSet acc q.1 q.2 = acc ++ [(q.1, q.2)] := by
        unfold mapSet
        rw [hq]
        simp
      rw [hset]
      simp only [List.map_cons, List.nodup_cons] at hnd
      have hrest : ∀ p ∈ rest, hasKey (acc ++ [(q.1, q.2)]) p.1 = false := by
        intro p hp
        rw [hasKey_append]
        have h1 : hasKey acc p.1 = false := h p (List.mem_cons_of_mem _ hp)
        have h2 : hasKey [(q.1, q.2)] p.1 = false := by
          unfold hasKey
          simp only [List.any_cons, List.any_nil, Bool.or_false]
          have hne : ¬ q.1 = p.1 := by
            intro he
            refine hnd.1 ?_
            rw [he]
            exact List.mem_map_of_mem Prod.fst hp
          simpa using hne
        rw [h1, h2]
        rfl
      rw [ih (acc ++ [(q.1, q.2)]) hrest hnd.2]
      simp

/-- Rebuilding the Map from an entry list with distinct keys restores
the list. -/
theorem mapFromEntries_nodup (l : Directory)
    (hnd : (l.map Prod.fst).Nodup) : mapFromEntries l = l := by
  unfold mapFromEntries
  have h := foldl_mapSet_fresh l [] (fun p _ => rfl) hnd
  simpa using h

/-- The JSON image of the directory keeps the keys. -/
theorem image_keys (l : Directory) :
    ((l.map (fun (p : String × Account) =>
      (p.1, jsonRoundTripAccount p.2))).map Prod.fst) = l.map Prod.fst := by
  simp

/-- C8 as stated fails on the code: a signature blob still carrying
recorded data does not survive the JSON round trip (JSON.stringify
writes a Blob as an empty object), so serializing and reloading a state
holding such a signature does not restore the same state. -/
theorem c8_roundtrip_cex : roundTripState psBlob ≠ psBlob := by
  decide

/-- C8 amended: for every session-consistent state (an account is
current exactly when the authenticated flag is set) with distinct
directory keys, serializing and reloading restores the directory and the
session exactly, except that the blob payload of every stored signature
is replaced by the plain empty object. -/
theorem c8_roundtrip (ps : PersistentState)
    (hsess : ps.currentUser.isSome = ps.isAuthenticated)
    (hnd : (ps.users.map Prod.fst).Nodup) :
    roundTripState ps = eraseBlobs ps := by
  unfold roundTripState saveUserData loadUserData emptyStore eraseBlobs
  have hmfe : mapFromEntries (ps.users.map (fun (p : String × Account) =>
      (p.1, jsonRoundTripAccount p.2))) =
      ps.users.map (fun (p : String × Account) =>
        (p.1, jsonRoundTripAccount p.2)) := by
    refine mapFromEntries_nodup _ ?_
    rw [image_keys]
    exact hnd
  cases hcu : ps.currentUser with
  | none =>
      rw [hcu] at hsess
      simp only [Option.isSome_none] at hsess
      dsimp only
      rw [hmfe, ← hsess]
      rfl
  | some u =>
      rw [hcu] at hsess
      simp only [Option.isSome_some] at hsess
      dsimp only
      rw [← hsess]
      simp only [if_true]
      rw [hmfe]
      simp

/-- Witness for C8 amended: the concrete state whose blob carries data
reloads as its blob-erased image. -/
theorem c8_roundtrip_witness : roundTripState psBlob = eraseBlobs psBlob :=
  c8_roundtrip psBlob rfl (by decide)

end AirAuth
